import Mathlib

/-!
Shallow embedding of the connection/protocol/routing layer of
`src/http-launch.c` (an HTTP-ish front door for a GStreamer
`multisocketsink` pipeline), together with proofs about the embedded
definitions.

Modelling conventions:
* C byte buffers (`GByteArray`) are `List Nat` (each element a byte value);
  C strings (`gchar *`) are Lean `String`s, manipulated through explicit
  `List Char` helpers so that all definitions evaluate by kernel reduction.
* The global mutable state (`clients`, `endpoints` lists and the per-client
  `Client` struct) is an explicit `ServerState` record threaded through the
  translated callbacks.
* `EndPoint *` references held by clients are indices into the endpoint
  list, so that mutation of an endpoint (caps resolution) is visible through
  a client's reference, as it is through the C pointer.
* Operations whose C execution is undefined (dereferencing a NULL
  `client->endpoint`) return `Option`, with `none` marking the undefined
  case.
* `g_print` logging, GStreamer pipeline start-up, and the actual socket
  writes are not modelled; a "sent response" is logged in a response list
  (the source builds each response with `g_strdup_printf` and hands it to
  `write_bytes`, which is assumed to succeed, as the source itself assumes:
  "TODO: We assume this never blocks").
-/

namespace HttpLaunch

/-! ### Constants from the source -/

/-- `GST_SECOND`: one second in GStreamer time units (nanoseconds). -/
def GST_SECOND : Nat := 1000000000

/-- `#define MAX_FLASHBACK 120` — maximum in-memory buffer duration. -/
def MAX_FLASHBACK : Int := 120

/-- The sentinel `guint64 min_value = -1` ("unspecified") used for the
`add-full` signal arguments. -/
def GUINT64_NEG1 : Nat := 2 ^ 64 - 1

/-! ### Byte-level helpers: the boundary scanner of `on_read_bytes`
(lines 296–321 of `http-launch.c`). -/

/-- The inner scan of `on_read_bytes`:
`while (tmp_len > 3) { if (tmp[0..3] == \r\n\r\n) ... else { tmp++; tmp_len--; } }`.
Returns the offset of the first occurrence of CR LF CR LF in the buffer,
or `none` when the loop falls off the end without a match. -/
def scanTerm : List Nat → Option Nat
  | a :: b :: c :: d :: rest =>
    if a = 13 ∧ b = 10 ∧ c = 13 ∧ d = 10 then some 0
    else (scanTerm (b :: c :: d :: rest)).map (· + 1)
  | _ => none

/-- The CR LF CR LF terminator occurs in `s` at offset `k`. -/
def termAt (s : List Nat) (k : Nat) : Prop :=
  (s.drop k).take 4 = [13, 10, 13, 10]

instance (s : List Nat) (k : Nat) : Decidable (termAt s k) := by
  unfold termAt; infer_instance

/-- The consume step of `on_read_bytes` when the terminator was found at
offset `k`: the source first appends a NUL byte
(`g_byte_array_append (client->current_message, "\0", 1)`), computes
`len = tmp - client->current_message->data + 5` (= `k + 5`), and on a
successful `client_message` removes the first `len` bytes
(`g_byte_array_remove_range (client->current_message, 0, len)`). -/
def consume_request (buf : List Nat) (k : Nat) : List Nat :=
  (buf ++ [0]).drop (k + 5)

/-- ASCII bytes of a string, for concrete buffers. -/
def strBytes (s : String) : List Nat :=
  s.data.map Char.toNat

/-! ### String helpers (GLib primitives used by `client_message`) -/

/-- `listIsPre pre l`: `pre` is a prefix of `l` (character lists). -/
def listIsPre : List Char → List Char → Bool
  | [], _ => true
  | _ :: _, [] => false
  | b :: bs, a :: as => a == b && listIsPre bs as

/-- `g_str_has_prefix (s, p)`. -/
def strStartsWith (s p : String) : Bool :=
  listIsPre p.data s.data

/-- Split a character list at every occurrence of `sep`, keeping empty
pieces, as `g_strsplit` does with a single-character delimiter. -/
def splitCharList (sep : Char) : List Char → List (List Char)
  | [] => [[]]
  | c :: cs =>
    let r := splitCharList sep cs
    if c = sep then [] :: r
    else
      match r with
      | t :: ts => (c :: t) :: ts
      | [] => [[c]]

/-- `g_strsplit (s, sep, -1)` for a one-character separator.
(For the empty string `g_strsplit` returns an empty vector while this
returns `[""]`; in `client_message` both make every `nb_parts > 1` /
`parts[1]` test fail, so the translated control flow agrees.) -/
def strSplitOnChar (sep : Char) (s : String) : List String :=
  (splitCharList sep s.data).map String.mk

/-- `lines[0]` of `g_strsplit_set (data, "\r\n", -1)`: the prefix of the
request data up to the first CR or LF. Only `lines[0]` is ever read by
`client_message`. -/
def firstLine (s : String) : String :=
  String.mk (s.data.takeWhile (fun c => c != '\r' && c != '\n'))

/-- Value of a decimal digit run, as accumulated by `strtoll`:
consumes leading digits, stops at the first non-digit. -/
def digitsVal : List Char → Nat → Nat
  | c :: cs, acc =>
    if c.isDigit then digitsVal cs (acc * 10 + (c.toNat - 48)) else acc
  | [], acc => acc

/-- `g_ascii_strtoll (s, NULL, 10)`: skips leading white space, reads an
optional sign and a decimal digit run (0 when there are no digits), and
clamps to the `gint64` range on overflow. -/
def g_ascii_strtoll (s : String) : Int :=
  let cs := s.data.dropWhile (fun c => c == ' ' || c == '\t' || c == '\n' ||
    c == '\r' || c == '\x0b' || c == '\x0c')
  let v : Int :=
    match cs with
    | '-' :: rest => -(digitsVal rest 0 : Int)
    | '+' :: rest => (digitsVal rest 0 : Int)
    | _ => (digitsVal cs 0 : Int)
  if v > 2 ^ 63 - 1 then 2 ^ 63 - 1
  else if v < -(2 ^ 63) then -(2 ^ 63)
  else v

/-- The C cast `(gint) v` from `gint64`: truncation to 32 bits,
two's complement. -/
def gint_cast (v : Int) : Int :=
  let m := v % 2 ^ 32
  if m < 2 ^ 31 then m else m - 2 ^ 32

/-! ### Data model: `EndPoint` and `Client` structs -/

/-- The `EndPoint` struct. `element : GstElement *` is modelled as an
opaque numeric identity; `content_type : gchar *` is `none` while NULL. -/
structure EndPoint where
  element : Nat
  name : String
  content_type : Option String
  caps_resolved : Bool
deriving DecidableEq, Repr

/-- The `Client` struct. `id` stands for the struct's address (pointer
identity); `endpoint` is an index into the endpoint list (`none` = NULL);
`isource`/`tosource` record whether those `GSource`s are non-NULL. The
byte accumulator `current_message` is modelled separately by `scanTerm` /
`consume_request`; the socket and stream handles carry no state relevant
here. -/
structure Client where
  id : Nat
  name : String
  http_version : String
  waiting_200_ok : Bool
  endpoint : Option Nat
  isource : Bool
  tosource : Bool
deriving DecidableEq, Repr

/-- A response, as built by `send_response_200_ok`,
`send_response_404_not_found` and `send_response_400_not_found`.
For `ok200`, `content_type` is the stored endpoint string, itself of the
form `"Content-Type: <name>\r\n"`. -/
inductive Resp where
  | ok200 (version : String) (content_type : String)
  | notFound404 (version : String)
  | badRequest400 (version : String)
deriving DecidableEq, Repr

/-- The exact byte string handed to `write_bytes` for each response
(the `g_strdup_printf` formats of lines 130, 141 and 152). -/
def Resp.render : Resp → String
  | .ok200 v ct => v ++ " 200 OK\r\n" ++ ct ++ "\r\n"
  | .notFound404 v => v ++ " 404 Not Found\r\n\r\n"
  | .badRequest400 v => v ++ " 400 Bad Request\r\n\r\n"

/-- The HTTP-version token a response's status line is built from. -/
def Resp.version : Resp → String
  | .ok200 v _ => v
  | .notFound404 v => v
  | .badRequest400 v => v

/-- Is this a 200-OK response? -/
def Resp.is200 : Resp → Bool
  | .ok200 _ _ => true
  | _ => false

/-! ### `client_message` (lines 157–268) -/

/-- `g_list_find_custom (endpoints, name, endpoint_compare_by_name)`:
index of the first endpoint whose name compares equal. -/
def find_endpoint_index (endpoints : List EndPoint) (name : String) :
    Option Nat :=
  endpoints.findIdx? (fun e => e.name == name)

/-- Placeholder endpoint for `List.getD`; never reached on indices stored
by `client_message` (they come from `findIdx?`). -/
def dummyEndpoint : EndPoint :=
  { element := 0, name := "", content_type := none, caps_resolved := false }

/-- `parts = g_strsplit (lines[0], " ", -1)`. -/
def request_line_parts (data : String) : List String :=
  strSplitOnChar ' ' (firstLine data)

/-- `path_parts = g_strsplit (parts[1], "/", -1)`. -/
def request_path_parts (data : String) : List String :=
  strSplitOnChar '/' ((request_line_parts data).getD 1 "")

/-- Lines 177–180: `client->http_version` is `parts[2]` when present and
non-empty, else `"HTTP/1.0"`. (`getD 2 ""` is `""` exactly when `parts[2]`
is NULL or empty.) -/
def parsed_version (data : String) : String :=
  let part2 := (request_line_parts data).getD 2 ""
  if part2 = "" then "HTTP/1.0" else part2

/-- Lines 190–210: endpoint lookup on `path_parts[1]`. Returns the updated
client, the response sent (if any), and `ret`. On a hit the endpoint is
assigned and either a 200 is sent at once (`caps_resolved`) or
`waiting_200_ok` is set; on a miss a 404 is sent and `ret` stays FALSE.
(`content_type.getD ""` is safe: the source sets `content_type` and
`caps_resolved` together.) -/
def route_request (endpoints : List EndPoint) (client : Client)
    (path_parts : List String) : Client × List Resp × Bool :=
  if 1 < path_parts.length then
    match find_endpoint_index endpoints (path_parts.getD 1 "") with
    | some idx =>
      let ep := endpoints.getD idx dummyEndpoint
      if ep.caps_resolved then
        ({ client with endpoint := some idx },
         [Resp.ok200 client.http_version (ep.content_type.getD "")], true)
      else
        ({ client with endpoint := some idx, waiting_200_ok := true },
         [], true)
    | none =>
      (client, [Resp.notFound404 client.http_version], false)
  else
    (client, [], false)

/-- Lines 163–164 and 212–230: the `burst_mode` / `min_value` arguments
later passed to the `add-full` signal. `flashback` sets a 30 s history
start; a fourth path part, cast through `(gint) g_ascii_strtoll`, overrides
it when strictly between 0 and `MAX_FLASHBACK`. `feedback` only logs. -/
def parse_delivery (path_parts : List String) (ret : Bool) : Int × Nat :=
  let burst_mode : Int := 2
  let min_value : Nat := GUINT64_NEG1
  let (burst_mode, min_value) :=
    if 2 < path_parts.length ∧ ret = true then
      if path_parts.getD 2 "" = "flashback" then (4, 30 * GST_SECOND)
      else (burst_mode, min_value)
    else (burst_mode, min_value)
  let min_value :=
    if 3 < path_parts.length ∧ ret = true then
      let offset := gint_cast (g_ascii_strtoll (path_parts.getD 3 ""))
      if 0 < offset ∧ offset < MAX_FLASHBACK then offset.toNat * GST_SECOND
      else min_value
    else min_value
  (burst_mode, min_value)

/-- Result of `client_message`: the mutated client, the responses handed to
`write_bytes`, the return value, the `add-full` arguments, and whether the
`add-full` handoff was emitted (GET success: input source and timeout
source destroyed, socket handed to the sink). -/
structure ClientMsgOut where
  client : Client
  responses : List Resp
  ret : Bool
  burst_mode : Int
  min_value : Nat
  handoff : Bool
deriving DecidableEq, Repr

/-- `client_message (client, data, len)` (lines 157–268). The request line
must begin with `"HEAD"` or `"GET"`; otherwise a 400 is sent and FALSE
returned. For GET/HEAD the version is (re)parsed, the path routed
(`route_request`), delivery mode parsed (`parse_delivery`), and on success
a GET destroys both sources and emits `add-full`. -/
def client_message (endpoints : List EndPoint) (client0 : Client)
    (data : String) : ClientMsgOut :=
  let line0 := firstLine data
  let http_head_request := strStartsWith line0 "HEAD"
  let http_get_request := strStartsWith line0 "GET"
  if http_head_request || http_get_request then
    let parts := request_line_parts data
    let client1 := { client0 with http_version := parsed_version data }
    if 1 < parts.length then
      let path_parts := request_path_parts data
      let (client2, responses, ret) := route_request endpoints client1 path_parts
      let (burst_mode, min_value) := parse_delivery path_parts ret
      let (client3, handoff) :=
        if ret = true ∧ http_get_request = true then
          ({ client2 with isource := false, tosource := false }, true)
        else (client2, false)
      { client := client3, responses := responses, ret := ret,
        burst_mode := burst_mode, min_value := min_value, handoff := handoff }
    else
      { client := client1, responses := [], ret := false,
        burst_mode := 2, min_value := GUINT64_NEG1, handoff := false }
  else
    { client := client0,
      responses := [Resp.badRequest400 client0.http_version], ret := false,
      burst_mode := 2, min_value := GUINT64_NEG1, handoff := false }

/-! ### Server state and the lifecycle / readiness callbacks -/

/-- Global state: the `endpoints` and `clients` lists, plus two
observation logs. `responses` records every `(client id, response)` handed
to `write_bytes`; `released` records each execution of `remove_client`'s
unconditional release block (the `g_free`s, source destroy/unrefs,
connection unref, byte-array unref and `g_slice_free`), by client id. -/
structure ServerState where
  endpoints : List EndPoint
  clients : List Client
  responses : List (Nat × Resp)
  released : List Nat
deriving DecidableEq, Repr

/-- `remove_client` (lines 77–101): `clients = g_list_remove (clients,
client)` (removes the first occurrence, a no-op when absent), then the
release block runs unconditionally on the passed struct. -/
def remove_client (st : ServerState) (cl : Client) : ServerState :=
  { st with
    clients := st.clients.eraseP (fun c => c.id == cl.id),
    released := st.released ++ [cl.id] }

/-- Lines 306–316 of `on_read_bytes`: one complete buffered request is
handed to `client_message`; on TRUE the request is consumed from the
buffer and scanning restarts, on FALSE the client is removed (after the
400/404 was already written). The byte-level consume itself is
`consume_request`. -/
def handle_complete_request (st : ServerState) (cid : Nat) (data : String) :
    ServerState :=
  match st.clients.find? (fun c => c.id == cid) with
  | none => st
  | some cl =>
    let out := client_message st.endpoints cl data
    let st1 := { st with
      responses := st.responses ++ out.responses.map (fun r => (cid, r)) }
    if out.ret then
      { st1 with
        clients := st1.clients.map (fun c => if c.id == cid then out.client else c) }
    else
      remove_client st1 cl

/-- `on_new_connection` (lines 340–387): a zero-initialised client —
`waiting_200_ok = FALSE`, `http_version = ""`, `endpoint = NULL`, both
sources armed — is prepended to the client list. -/
def on_new_connection (st : ServerState) (cid : Nat) (peer : String) :
    ServerState :=
  { st with clients :=
      ({ id := cid, name := peer, http_version := "",
         waiting_200_ok := false, endpoint := none,
         isource := true, tosource := true } : Client) :: st.clients }

/-- Lines 456–470 of `on_stream_caps_changed`: find the first endpoint
whose `element` matches and unconditionally overwrite its `content_type`
with `"Content-Type: <name>\r\n"` and set `caps_resolved = TRUE`. -/
def set_caps : List EndPoint → Nat → String → List EndPoint
  | [], _, _ => []
  | e :: rest, element, ctype_name =>
    if e.element == element then
      { e with
        content_type := some ("Content-Type: " ++ ctype_name ++ "\r\n"),
        caps_resolved := true } :: rest
    else
      e :: set_caps rest element ctype_name

/-- Lines 475–484: the scan over `clients`. Each visited client is tested
with `cl->endpoint->element == element && cl->waiting_200_ok`; the source
dereferences `cl->endpoint` unconditionally, which is undefined when that
pointer is NULL — modelled as `none`. On a hit a 200 is sent from the
endpoint's (current) content type, the flag is cleared, and the loop
breaks. -/
def scan_waiting (eps : List EndPoint) (element : Nat) :
    List Client → Option (List Client × List (Nat × Resp))
  | [] => some ([], [])
  | cl :: rest =>
    match cl.endpoint with
    | none => none
    | some idx =>
      let ep := eps.getD idx dummyEndpoint
      if ep.element == element && cl.waiting_200_ok then
        some ({ cl with waiting_200_ok := false } :: rest,
          [(cl.id, Resp.ok200 cl.http_version (ep.content_type.getD ""))])
      else
        match scan_waiting eps element rest with
        | none => none
        | some (rest', msgs) => some (cl :: rest', msgs)

/-- `on_stream_caps_changed` (lines 450–489): record the content type on
the matching endpoint (if any), then scan the clients for one waiting on
this element and answer it. `none` marks the undefined NULL-endpoint
dereference inside the scan. -/
def on_stream_caps_changed (st : ServerState) (element : Nat)
    (ctype_name : String) : Option ServerState :=
  let eps1 := set_caps st.endpoints element ctype_name
  match scan_waiting eps1 element st.clients with
  | none => none
  | some (clients', msgs) =>
    some { st with
           endpoints := eps1,
           clients := clients',
           responses := st.responses ++ msgs }

/-! ### Event traces -/

/-- External events driving the state: a new connection, one complete
buffered request arriving for a client, or a caps notification from the
streaming thread. -/
inductive Ev where
  | connect (cid : Nat) (peer : String)
  | req (cid : Nat) (data : String)
  | caps (element : Nat) (ctype_name : String)
deriving DecidableEq, Repr

/-- One event step; `none` propagates the undefined caps-scan case. -/
def stepEv (st : ServerState) : Ev → Option ServerState
  | .connect cid peer => some (on_new_connection st cid peer)
  | .req cid data => some (handle_complete_request st cid data)
  | .caps element ctype_name => on_stream_caps_changed st element ctype_name

/-- Run a list of events. -/
def runEvents (st : ServerState) : List Ev → Option ServerState
  | [] => some st
  | e :: es =>
    match stepEv st e with
    | none => none
    | some st' => runEvents st' es

/-- Number of 200-OK responses written to client `cid` so far. -/
def sent200_to (st : ServerState) (cid : Nat) : Nat :=
  st.responses.countP (fun p => p.1 == cid && p.2.is200)

/-! ### Concrete fixtures for counterexamples and witnesses -/

/-- A freshly accepted client, as built by `on_new_connection`. -/
def fresh_client : Client :=
  { id := 0, name := "127.0.0.1:50000", http_version := "",
    waiting_200_ok := false, endpoint := none,
    isource := true, tosource := true }

/-- An endpoint whose caps already resolved to `video/x-matroska`. -/
def cam_resolved : EndPoint :=
  { element := 0, name := "cam",
    content_type := some "Content-Type: video/x-matroska\r\n",
    caps_resolved := true }

/-- An endpoint whose caps are not yet resolved. -/
def cam_unresolved : EndPoint :=
  { element := 0, name := "cam", content_type := none,
    caps_resolved := false }

/-- One resolved endpoint, one fresh client. -/
def st_resolved : ServerState :=
  { endpoints := [cam_resolved], clients := [fresh_client],
    responses := [], released := [] }

/-- No endpoints, one fresh client. -/
def st_empty : ServerState :=
  { endpoints := [], clients := [fresh_client],
    responses := [], released := [] }

/-- One unresolved endpoint, no clients yet. -/
def st_unresolved : ServerState :=
  { endpoints := [cam_unresolved], clients := [],
    responses := [], released := [] }

/-! ## Theorems -/

/-! ### Boundary scan (C1) -/

theorem termAt_cons_succ (a : Nat) (s : List Nat) (k : Nat) :
    termAt (a :: s) (k + 1) ↔ termAt s k := by
  simp [termAt, List.drop_succ_cons]

theorem not_termAt_of_short (s : List Nat) (k : Nat) (h : s.length < 4) :
    ¬ termAt s k := by
  intro ht
  have hlen := congrArg List.length ht
  simp [List.length_take, List.length_drop] at hlen
  omega

theorem scanTerm_some (s : List Nat) :
    ∀ k, scanTerm s = some k →
      termAt s k ∧ ∀ j, j < k → ¬ termAt s j := by
  induction s with
  | nil => intro k h; simp [scanTerm] at h
  | cons a s ih =>
    intro k h
    rcases s with _ | ⟨b, s⟩
    · simp [scanTerm] at h
    rcases s with _ | ⟨c, s⟩
    · simp [scanTerm] at h
    rcases s with _ | ⟨d, rest⟩
    · simp [scanTerm] at h
    by_cases hcond : a = 13 ∧ b = 10 ∧ c = 13 ∧ d = 10
    · rw [scanTerm, if_pos hcond] at h
      obtain rfl : k = 0 := (Option.some_inj.mp h).symm
      refine ⟨?_, fun j hj => absurd hj (Nat.not_lt_zero j)⟩
      obtain ⟨rfl, rfl, rfl, rfl⟩ := hcond
      simp [termAt]
    · rw [scanTerm, if_neg hcond] at h
      obtain ⟨m, hm, hmk⟩ := Option.map_eq_some'.mp h
      obtain ⟨ht, hmin⟩ := ih m hm
      subst hmk
      refine ⟨(termAt_cons_succ a _ m).mpr ht, ?_⟩
      intro j hj
      match j with
      | 0 =>
        intro h0
        apply hcond
        simpa [termAt] using h0
      | j + 1 =>
        rw [termAt_cons_succ]
        exact hmin j (Nat.lt_of_succ_lt_succ hj)

theorem scanTerm_none (s : List Nat) :
    scanTerm s = none → ∀ j, ¬ termAt s j := by
  induction s with
  | nil =>
    intro _ j
    exact not_termAt_of_short [] j (by simp)
  | cons a s ih =>
    intro h j
    rcases s with _ | ⟨b, s⟩
    · exact not_termAt_of_short _ j (by simp)
    rcases s with _ | ⟨c, s⟩
    · exact not_termAt_of_short _ j (by simp)
    rcases s with _ | ⟨d, rest⟩
    · exact not_termAt_of_short _ j (by simp)
    by_cases hcond : a = 13 ∧ b = 10 ∧ c = 13 ∧ d = 10
    · rw [scanTerm, if_pos hcond] at h
      exact absurd h (by simp)
    · rw [scanTerm, if_neg hcond] at h
      have htail := Option.map_eq_none'.mp h
      match j with
      | 0 =>
        intro h0
        apply hcond
        simpa [termAt] using h0
      | j + 1 =>
        rw [termAt_cons_succ]
        exact ih htail j

/-- C1: for every byte stream delivered in arbitrary chunk sizes, the
boundary scan over the accumulated buffer (the concatenation of the
chunks) finds a terminator exactly when the reassembled stream contains
CR LF CR LF, it reports the offset of the first occurrence, and the
result depends only on the concatenation, not on the chunking. -/
theorem boundary_scan_correct (chunks : List (List Nat)) :
    (∀ k, scanTerm chunks.flatten = some k ↔
      (termAt chunks.flatten k ∧ ∀ j, j < k → ¬ termAt chunks.flatten j)) ∧
    (scanTerm chunks.flatten = none ↔ ∀ j, ¬ termAt chunks.flatten j) := by
  constructor
  · intro k
    constructor
    · exact scanTerm_some _ k
    · rintro ⟨ht, hmin⟩
      cases hscan : scanTerm chunks.flatten with
      | none => exact absurd ht (scanTerm_none _ hscan k)
      | some m =>
        obtain ⟨ht', hmin'⟩ := scanTerm_some _ m hscan
        have hmk : m = k := by
          rcases Nat.lt_trichotomy m k with hlt | heq | hgt
          · exact absurd ht' (hmin m hlt)
          · exact heq
          · exact absurd ht (hmin' k hgt)
        rw [hmk]
  · constructor
    · exact scanTerm_none _
    · intro hall
      cases hscan : scanTerm chunks.flatten with
      | none => rfl
      | some m => exact absurd (scanTerm_some _ m hscan).1 (hall m)

/-! ### Consume step (C6) -/

/-- C6: the consume step does not remove exactly the first `k+4` bytes.
On the buffer holding the complete request `"HEAD /cam HTTP/1.0\r\n\r\n"`
(terminator at offset 18) followed by a pipelined second request, the
code removes `k+5` bytes of the NUL-extended buffer: the surviving buffer
has lost the pipelined request's first byte `'H'` (0x48) and gained a
trailing NUL, instead of being exactly the second request. -/
theorem consume_request_eats_pipelined_byte :
    scanTerm (strBytes "HEAD /cam HTTP/1.0\r\n\r\nHEAD /cam HTTP/1.0\r\n\r\n")
      = some 18 ∧
    consume_request
      (strBytes "HEAD /cam HTTP/1.0\r\n\r\nHEAD /cam HTTP/1.0\r\n\r\n") 18
      = strBytes "EAD /cam HTTP/1.0\r\n\r\n" ++ [0] ∧
    (strBytes "HEAD /cam HTTP/1.0\r\n\r\nHEAD /cam HTTP/1.0\r\n\r\n").drop (18 + 4)
      = strBytes "HEAD /cam HTTP/1.0\r\n\r\n" := by
  decide

/-! ### Caps-notification scan over unrouted sessions (C10) -/

/-- C10: immediately after `on_new_connection` accepts a session (its
`endpoint` reference still absent), a caps notification's scan over the
active-session set dereferences the absent endpoint of that session —
the modelled `on_stream_caps_changed` is undefined (`none`) instead of
skipping it. -/
theorem caps_scan_absent_endpoint_undefined :
    on_stream_caps_changed
      (on_new_connection st_unresolved 5 "10.0.0.1:1234") 0 "video/x-matroska"
      = none := by
  decide

/-! ### 400 handling (C2) -/

/-- C2 (counterexample): a complete request whose line starts with
`"POST"` is answered with 400 — but the session is then torn down: the
active-session set is empty afterwards and the release block ran,
contradicting "the connection is kept open and the session is not torn
down". -/
theorem bad_method_session_removed_cex :
    (handle_complete_request st_empty 0 "POST /cam HTTP/1.1\r\n\r\n").responses
      = [(0, Resp.badRequest400 "")] ∧
    (handle_complete_request st_empty 0 "POST /cam HTTP/1.1\r\n\r\n").clients
      = [] ∧
    (handle_complete_request st_empty 0 "POST /cam HTTP/1.1\r\n\r\n").released
      = [0] := by
  decide

/-! ### 404 handling (C3) -/

/-- C3 (counterexample): a complete GET naming an endpoint not in the
registry is answered with 404 — but the session is then torn down: the
active set is empty afterwards and the release block ran, contradicting
"the session is not removed from the active-session set solely because
of the unknown name". -/
theorem unknown_endpoint_session_removed_cex :
    (handle_complete_request st_empty 0 "GET /missing HTTP/1.0\r\n\r\n").responses
      = [(0, Resp.notFound404 "HTTP/1.0")] ∧
    (handle_complete_request st_empty 0 "GET /missing HTTP/1.0\r\n\r\n").clients
      = [] ∧
    (handle_complete_request st_empty 0 "GET /missing HTTP/1.0\r\n\r\n").released
      = [0] := by
  decide

/-! ### `remove_client` idempotence (C4) -/

/-- C4 (counterexample): calling `remove_client` twice on the same
session is observably different from calling it once — the second call
runs the resource-release block again (a double free in the source). -/
theorem remove_client_twice_ne_once :
    remove_client (remove_client st_empty fresh_client) fresh_client
      ≠ remove_client st_empty fresh_client := by
  decide

/-! ### Caps resolved twice (C5) -/

/-- C5 (counterexample): two caps notifications with different content
types leave the type of the second call, not the first: the endpoint's
`content_type` is overwritten, not immutable once set. -/
theorem caps_twice_overwrites_cex :
    ((on_stream_caps_changed st_unresolved 0 "video/x-matroska").bind
        (fun st => on_stream_caps_changed st 0 "audio/mpeg")).map
        (fun st => st.endpoints.map EndPoint.content_type)
      = some [some "Content-Type: audio/mpeg\r\n"] ∧
    (some "Content-Type: audio/mpeg\r\n" : Option String)
      ≠ some "Content-Type: video/x-matroska\r\n" := by
  decide

/-! ### Response version token (C7) -/

/-- C7 (counterexample): on a fresh session (stored `http_version` is the
empty string, as set by `on_new_connection`), the 400 response to
`"POST /cam HTTP/1.1"` has the status line `" 400 Bad Request\r\n\r\n"`,
which begins neither with the request's version token `"HTTP/1.1"` nor
with `"HTTP/1.0"`. -/
theorem bad_request_version_cex :
    (client_message [] fresh_client "POST /cam HTTP/1.1\r\n\r\n").responses
      = [Resp.badRequest400 ""] ∧
    Resp.render (Resp.badRequest400 "") = " 400 Bad Request\r\n\r\n" ∧
    strStartsWith " 400 Bad Request\r\n\r\n" "HTTP/1.1" = false ∧
    strStartsWith " 400 Bad Request\r\n\r\n" "HTTP/1.0" = false := by
  decide

/-! ### Flashback offset (C8) -/

/-- C8 (counterexample): the fourth segment `"4294967346"` parses as the
integer 4294967346 = 2^32 + 50, far outside the open range (0, 120), so
by the claim the offset must stay at the 30-second default — but the
`(gint)` cast truncates it to 50 and the code sets a 50-second offset. -/
theorem flashback_offset_wraparound_cex :
    g_ascii_strtoll "4294967346" = 4294967346 ∧
    ¬ (0 < (4294967346 : Int) ∧ (4294967346 : Int) < MAX_FLASHBACK) ∧
    (client_message [cam_resolved] fresh_client
        "GET /cam/flashback/4294967346 HTTP/1.1\r\n\r\n").ret = true ∧
    (client_message [cam_resolved] fresh_client
        "GET /cam/flashback/4294967346 HTTP/1.1\r\n\r\n").min_value
      = 50 * GST_SECOND ∧
    50 * GST_SECOND ≠ 30 * GST_SECOND := by
  decide

/-! ### At most one 200 per session (C9) -/

/-- C9 (counterexample): a session that pipelines two HEAD requests for
an already-resolved endpoint is sent two 200-OK responses over its
lifetime, contradicting "at most one 200 OK per session". -/
theorem two_head_requests_two_200s :
    (runEvents st_resolved
        [Ev.req 0 "HEAD /cam HTTP/1.0\r\n\r\n",
         Ev.req 0 "HEAD /cam HTTP/1.0\r\n\r\n"]).map
        (fun st => sent200_to st 0)
      = some 2 ∧
    ¬ (2 ≤ 1) := by
  decide

theorem eraseP_self_of_countP_le_one {α : Type} (p : α → Bool) (l : List α)
    (h : l.countP p ≤ 1) : (l.eraseP p).eraseP p = l.eraseP p := by
  induction l with
  | nil => rfl
  | cons a t ih =>
    by_cases pa : p a = true
    · rw [List.eraseP_cons_of_pos pa]
      rw [List.countP_cons_of_pos _ _ pa] at h
      have ht : t.countP p = 0 := by omega
      exact List.eraseP_of_forall_not (fun x hx =>
        List.countP_eq_zero.mp ht x hx)
    · rw [List.eraseP_cons_of_neg pa]
      rw [List.countP_cons_of_neg _ _ pa] at h
      rw [List.eraseP_cons_of_neg pa, ih h]

/-- C4 (amended): only the active-set removal of `remove_client` is
idempotent — removing an already-absent session from the list is a no-op
(provided the session occurs at most once in the set, as it does in every
reachable state) — while the resource-release block runs unconditionally
on every call, so the second call releases the session's resources a
second time. -/
theorem remove_client_set_idempotent (st : ServerState) (cl : Client)
    (h : st.clients.countP (fun c => c.id == cl.id) ≤ 1) :
    (remove_client (remove_client st cl) cl).clients
      = (remove_client st cl).clients ∧
    (remove_client (remove_client st cl) cl).released
      = (remove_client st cl).released ++ [cl.id] := by
  unfold remove_client
  exact ⟨eraseP_self_of_countP_le_one _ _ h, rfl⟩

/-- Witness for `remove_client_set_idempotent` at a concrete state. -/
theorem remove_client_set_idempotent_witness :
    (remove_client (remove_client st_empty fresh_client) fresh_client).clients
      = (remove_client st_empty fresh_client).clients ∧
    (remove_client (remove_client st_empty fresh_client) fresh_client).released
      = (remove_client st_empty fresh_client).released ++ [fresh_client.id] :=
  remove_client_set_idempotent st_empty fresh_client (by decide)

/-- C5 (amended): a second caps notification for the same endpoint is not
a no-op — the update is last-writer-wins: notifying with `t1` and then
`t2` records the same content type as notifying with `t2` alone
(`caps_resolved` stays TRUE). -/
theorem set_caps_last_writer_wins (eps : List EndPoint) (element : Nat)
    (t1 t2 : String) :
    set_caps (set_caps eps element t1) element t2
      = set_caps eps element t2 := by
  induction eps with
  | nil => rfl
  | cons e rest ih =>
    by_cases he : (e.element == element) = true
    · simp [set_caps, he]
    · simp only [set_caps, he, if_false, Bool.false_eq_true,
        List.cons.injEq, true_and]
      exact ih

/-- C2 (amended): a complete buffered request whose request line does not
begin with `"HEAD"` or `"GET"` is answered with 400 Bad Request (built
from the session's stored `http_version`) — and `client_message` then
returns FALSE, so `on_read_bytes` removes the session from the active set
and runs the release block: the connection is torn down, not kept open. -/
theorem bad_method_400_and_removed (st : ServerState) (cl : Client)
    (data : String)
    (hfind : st.clients.find? (fun c => c.id == cl.id) = some cl)
    (hhead : strStartsWith (firstLine data) "HEAD" = false)
    (hget : strStartsWith (firstLine data) "GET" = false) :
    (handle_complete_request st cl.id data).responses
      = st.responses ++ [(cl.id, Resp.badRequest400 cl.http_version)] ∧
    (handle_complete_request st cl.id data).clients
      = st.clients.eraseP (fun c => c.id == cl.id) ∧
    (handle_complete_request st cl.id data).released
      = st.released ++ [cl.id] := by
  unfold handle_complete_request
  rw [hfind]
  simp [client_message, hhead, hget, remove_client]

/-- Witness for `bad_method_400_and_removed` at a concrete state. -/
theorem bad_method_400_and_removed_witness :
    (handle_complete_request st_empty fresh_client.id
        "POST /cam HTTP/1.1\r\n\r\n").responses
      = st_empty.responses
        ++ [(fresh_client.id, Resp.badRequest400 fresh_client.http_version)] ∧
    (handle_complete_request st_empty fresh_client.id
        "POST /cam HTTP/1.1\r\n\r\n").clients
      = st_empty.clients.eraseP (fun c => c.id == fresh_client.id) ∧
    (handle_complete_request st_empty fresh_client.id
        "POST /cam HTTP/1.1\r\n\r\n").released
      = st_empty.released ++ [fresh_client.id] :=
  bad_method_400_and_removed st_empty fresh_client "POST /cam HTTP/1.1\r\n\r\n"
    (by decide) (by decide) (by decide)

/-- C3 (amended): a complete GET/HEAD request naming an endpoint not in
the registry is answered with 404 Not Found (built from the request's
parsed version) — and `client_message` then returns FALSE, so
`on_read_bytes` removes the session from the active set and runs the
release block: the session does not stay in the active-session set. -/
theorem unknown_endpoint_404_and_removed (st : ServerState) (cl : Client)
    (data : String)
    (hfind : st.clients.find? (fun c => c.id == cl.id) = some cl)
    (hmethod : (strStartsWith (firstLine data) "HEAD"
      || strStartsWith (firstLine data) "GET") = true)
    (hparts : 1 < (request_line_parts data).length)
    (hpp : 1 < (request_path_parts data).length)
    (hmiss : find_endpoint_index st.endpoints
      ((request_path_parts data).getD 1 "") = none) :
    (handle_complete_request st cl.id data).responses
      = st.responses ++ [(cl.id, Resp.notFound404 (parsed_version data))] ∧
    (handle_complete_request st cl.id data).clients
      = st.clients.eraseP (fun c => c.id == cl.id) ∧
    (handle_complete_request st cl.id data).released
      = st.released ++ [cl.id] := by
  have hmiss' : find_endpoint_index st.endpoints
      (getElem (request_path_parts data) 1 hpp) = none := by
    rw [← List.getD_eq_getElem _ "" hpp]
    exact hmiss
  unfold handle_complete_request
  rw [hfind]
  simp [client_message, route_request, hmethod, hparts, hpp, hmiss, hmiss',
    remove_client]

/-- Witness for `unknown_endpoint_404_and_removed` at a concrete state. -/
theorem unknown_endpoint_404_and_removed_witness :
    (handle_complete_request st_empty fresh_client.id
        "GET /missing HTTP/1.0\r\n\r\n").responses
      = st_empty.responses
        ++ [(fresh_client.id,
             Resp.notFound404 (parsed_version "GET /missing HTTP/1.0\r\n\r\n"))] ∧
    (handle_complete_request st_empty fresh_client.id
        "GET /missing HTTP/1.0\r\n\r\n").clients
      = st_empty.clients.eraseP (fun c => c.id == fresh_client.id) ∧
    (handle_complete_request st_empty fresh_client.id
        "GET /missing HTTP/1.0\r\n\r\n").released
      = st_empty.released ++ [fresh_client.id] :=
  unknown_endpoint_404_and_removed st_empty fresh_client
    "GET /missing HTTP/1.0\r\n\r\n"
    (by decide) (by decide) (by decide) (by decide) (by decide)

theorem strAppendData (s t : String) : (s ++ t).data = s.data ++ t.data := by
  cases s
  cases t
  rfl

theorem listIsPre_append (as bs : List Char) :
    listIsPre as (as ++ bs) = true := by
  induction as with
  | nil => rfl
  | cons a as ih => simp [listIsPre, ih]

theorem render_starts_with_version (r : Resp) :
    strStartsWith (Resp.render r) (Resp.version r) = true := by
  cases r with
  | ok200 v ct =>
    show listIsPre v.data (v ++ " 200 OK\r\n" ++ ct ++ "\r\n").data = true
    rw [strAppendData, strAppendData, strAppendData,
      List.append_assoc, List.append_assoc]
    exact listIsPre_append v.data _
  | notFound404 v =>
    show listIsPre v.data (v ++ " 404 Not Found\r\n\r\n").data = true
    rw [strAppendData]
    exact listIsPre_append v.data _
  | badRequest400 v =>
    show listIsPre v.data (v ++ " 400 Bad Request\r\n\r\n").data = true
    rw [strAppendData]
    exact listIsPre_append v.data _

theorem route_request_responses_version (endpoints : List EndPoint)
    (c : Client) (pp : List String) :
    ∀ r ∈ (route_request endpoints c pp).2.1,
      Resp.version r = c.http_version := by
  unfold route_request
  split
  · split
    · dsimp only
      split
      · intro r hr
        simp only [List.mem_singleton] at hr
        subst hr
        rfl
      · intro r hr
        simp at hr
    · intro r hr
      simp only [List.mem_singleton] at hr
      subst hr
      rfl
  · intro r hr
    simp at hr

/-- C7 (amended): a response produced while handling a GET/HEAD request
(200 or 404) carries the version token parsed from that request, or
`"HTTP/1.0"` when the token is absent or empty — but the 400 response to
a request whose line is not GET/HEAD carries the session's previously
stored `http_version` (the empty string on a fresh session, or the token
of an earlier GET/HEAD request), not the failing request's token. In all
cases the rendered status line begins with that stored token. -/
theorem response_version_amended (eps : List EndPoint) (cl : Client)
    (data : String) (r : Resp)
    (hr : r ∈ (client_message eps cl data).responses) :
    Resp.version r
      = (if (strStartsWith (firstLine data) "HEAD"
            || strStartsWith (firstLine data) "GET") = true
         then parsed_version data
         else cl.http_version) ∧
    strStartsWith (Resp.render r) (Resp.version r) = true := by
  refine ⟨?_, render_starts_with_version r⟩
  unfold client_message at hr
  by_cases hm : (strStartsWith (firstLine data) "HEAD"
      || strStartsWith (firstLine data) "GET") = true
  · rw [if_pos hm] at hr ⊢
    by_cases hp : 1 < (request_line_parts data).length
    · rw [if_pos hp] at hr
      simp only at hr
      rcases hroute : route_request eps
          { cl with http_version := parsed_version data }
          (request_path_parts data) with ⟨c2, resps, ret⟩
      rw [hroute] at hr
      simp only at hr
      have := route_request_responses_version eps
        { cl with http_version := parsed_version data }
        (request_path_parts data) r
      rw [hroute] at this
      exact this hr
    · rw [if_neg hp] at hr
      simp at hr
  · rw [if_neg hm] at hr ⊢
    simp only [List.mem_singleton] at hr
    subst hr
    rfl

/-- Witness for `response_version_amended`: the 404 to
`"GET /missing HTTP/1.0"` on a fresh session carries `"HTTP/1.0"`. -/
theorem response_version_amended_witness :
    Resp.version (Resp.notFound404 "HTTP/1.0")
      = (if (strStartsWith (firstLine "GET /missing HTTP/1.0\r\n\r\n") "HEAD"
            || strStartsWith (firstLine "GET /missing HTTP/1.0\r\n\r\n") "GET")
            = true
         then parsed_version "GET /missing HTTP/1.0\r\n\r\n"
         else fresh_client.http_version) ∧
    strStartsWith (Resp.render (Resp.notFound404 "HTTP/1.0"))
      (Resp.version (Resp.notFound404 "HTTP/1.0")) = true :=
  response_version_amended [] fresh_client "GET /missing HTTP/1.0\r\n\r\n"
    (Resp.notFound404 "HTTP/1.0") (by decide)

theorem getD_eq_empty_of_le {l : List String} {n : Nat}
    (h : l.length ≤ n) : l.getD n "" = "" := by
  simp [List.getD_eq_getElem?_getD, List.getElem?_eq_none h]

theorem parse_delivery_flashback (pp : List String)
    (hmode : pp.getD 2 "" = "flashback") :
    parse_delivery pp true
      = (4,
        if 0 < gint_cast (g_ascii_strtoll (pp.getD 3 ""))
            ∧ gint_cast (g_ascii_strtoll (pp.getD 3 "")) < MAX_FLASHBACK
        then (gint_cast (g_ascii_strtoll (pp.getD 3 ""))).toNat * GST_SECOND
        else 30 * GST_SECOND) := by
  have h2 : 2 < pp.length := by
    by_contra hle
    rw [getD_eq_empty_of_le (Nat.le_of_not_lt hle)] at hmode
    exact absurd hmode (by decide)
  have hmode' : getElem pp 2 h2 = "flashback" := by
    rw [← List.getD_eq_getElem pp "" h2]
    exact hmode
  by_cases h3 : 3 < pp.length
  · simp [parse_delivery, hmode', h2, h3]
  · have h3' : pp[3]? = none := List.getElem?_eq_none (Nat.le_of_not_lt h3)
    have h0 : gint_cast (g_ascii_strtoll "") = 0 := by decide
    simp [parse_delivery, hmode', h2, h3, h3', h0]

theorem client_message_delivery (eps : List EndPoint) (cl : Client)
    (data : String)
    (hret : (client_message eps cl data).ret = true) :
    (client_message eps cl data).burst_mode
        = (parse_delivery (request_path_parts data) true).1 ∧
    (client_message eps cl data).min_value
        = (parse_delivery (request_path_parts data) true).2 := by
  by_cases hm : (strStartsWith (firstLine data) "HEAD"
      || strStartsWith (firstLine data) "GET") = true
  · by_cases hp : 1 < (request_line_parts data).length
    · rcases hroute : route_request eps
          { cl with http_version := parsed_version data }
          (request_path_parts data) with ⟨c2, resps, ret⟩
      have hret' : ret = true := by
        have h := hret
        simp [client_message, hm, hp, hroute] at h
        exact h
      subst hret'
      constructor <;> simp [client_message, hm, hp, hroute]
    · have h := hret
      simp [client_message, hm, hp] at h
  · have h := hret
    simp [client_message, hm] at h

/-- C8 (amended): for a successfully routed request with mode segment
`"flashback"`, the delivery start offset defaults to 30 seconds
(`min_value = 30 * GST_SECOND`) and a fourth path segment overrides it
exactly when its parsed value, after the `(gint)` 32-bit truncating cast
of `g_ascii_strtoll`'s result, lies strictly between 0 and
`MAX_FLASHBACK` (120); a truncated value outside that open range leaves
the 30-second default. (The truncation means a literal integer outside
(0, 120), such as 2^32 + 50, can still override — see the
counterexample.) -/
theorem flashback_offset_amended (eps : List EndPoint) (cl : Client)
    (data : String)
    (hret : (client_message eps cl data).ret = true)
    (hmode : (request_path_parts data).getD 2 "" = "flashback") :
    (client_message eps cl data).burst_mode = 4 ∧
    (client_message eps cl data).min_value
      = (if 0 < gint_cast (g_ascii_strtoll ((request_path_parts data).getD 3 ""))
            ∧ gint_cast (g_ascii_strtoll ((request_path_parts data).getD 3 ""))
              < MAX_FLASHBACK
         then (gint_cast (g_ascii_strtoll
            ((request_path_parts data).getD 3 ""))).toNat * GST_SECOND
         else 30 * GST_SECOND) := by
  obtain ⟨hb, hm⟩ := client_message_delivery eps cl data hret
  rw [parse_delivery_flashback (request_path_parts data) hmode] at hb hm
  exact ⟨hb, hm⟩

/-- Witness for `flashback_offset_amended`: `GET /cam/flashback/45`
routes with a 45-second offset. -/
theorem flashback_offset_amended_witness :
    (client_message [cam_resolved] fresh_client
        "GET /cam/flashback/45 HTTP/1.1\r\n\r\n").burst_mode = 4 ∧
    (client_message [cam_resolved] fresh_client
        "GET /cam/flashback/45 HTTP/1.1\r\n\r\n").min_value
      = 45 * GST_SECOND := by
  have h := flashback_offset_amended [cam_resolved] fresh_client
    "GET /cam/flashback/45 HTTP/1.1\r\n\r\n" (by decide) (by decide)
  exact ⟨h.1, h.2.trans (by decide)⟩

theorem route_request_responses_le_one (endpoints : List EndPoint)
    (c : Client) (pp : List String) :
    (route_request endpoints c pp).2.1.length ≤ 1 := by
  unfold route_request
  split
  · split
    · dsimp only
      split <;> simp
    · simp
  · simp

theorem client_message_responses_le_one (eps : List EndPoint) (cl : Client)
    (data : String) :
    (client_message eps cl data).responses.length ≤ 1 := by
  by_cases hm : (strStartsWith (firstLine data) "HEAD"
      || strStartsWith (firstLine data) "GET") = true
  · by_cases hp : 1 < (request_line_parts data).length
    · rcases hroute : route_request eps
          { cl with http_version := parsed_version data }
          (request_path_parts data) with ⟨c2, resps, ret⟩
      have h := route_request_responses_le_one eps
        { cl with http_version := parsed_version data }
        (request_path_parts data)
      rw [hroute] at h
      simpa [client_message, hm, hp, hroute] using h
    · simp [client_message, hm, hp]
  · simp [client_message, hm]

theorem countP_le_one_of_length_le_one {α : Type} (p : α → Bool)
    (l : List α) (h : l.length ≤ 1) : l.countP p ≤ 1 :=
  Nat.le_trans (List.countP_le_length p) h

theorem scan_waiting_msgs (eps : List EndPoint) (element : Nat) :
    ∀ (clients clients' : List Client) (msgs : List (Nat × Resp)),
      scan_waiting eps element clients = some (clients', msgs) →
      msgs.length ≤ 1 ∧
      ∀ p ∈ msgs, ∃ cl, cl ∈ clients ∧ cl.id = p.1
        ∧ cl.waiting_200_ok = true := by
  intro clients
  induction clients with
  | nil =>
    intro clients' msgs h
    simp only [scan_waiting, Option.some.injEq, Prod.mk.injEq] at h
    obtain ⟨_, rfl⟩ := h
    simp
  | cons cl rest ih =>
    intro clients' msgs h
    unfold scan_waiting at h
    cases hep : cl.endpoint with
    | none =>
      rw [hep] at h
      exact absurd h (by simp)
    | some idx =>
      rw [hep] at h
      dsimp only at h
      by_cases hcond : ((eps.getD idx dummyEndpoint).element == element
          && cl.waiting_200_ok) = true
      · rw [if_pos hcond] at h
        simp only [Option.some.injEq, Prod.mk.injEq] at h
        obtain ⟨_, rfl⟩ := h
        refine ⟨by simp, ?_⟩
        intro p hp
        simp only [List.mem_singleton] at hp
        subst hp
        simp only [Bool.and_eq_true] at hcond
        exact ⟨cl, List.mem_cons_self cl rest, rfl, hcond.2⟩
      · rw [if_neg hcond] at h
        cases hs : scan_waiting eps element rest with
        | none =>
          rw [hs] at h
          exact absurd h (by simp)
        | some pr =>
          rcases pr with ⟨rest', msgs'⟩
          rw [hs] at h
          simp only [Option.some.injEq, Prod.mk.injEq] at h
          obtain ⟨_, rfl⟩ := h
          obtain ⟨hlen, hmem⟩ := ih rest' msgs' hs
          refine ⟨hlen, ?_⟩
          intro p hp
          obtain ⟨c, hcmem, hcid, hw⟩ := hmem p hp
          exact ⟨c, List.mem_cons_of_mem cl hcmem, hcid, hw⟩

/-- C9 (amended): each single event sends at most one 200-OK to any given
session — one per processed request on the immediate routing path, and at
most one per caps notification on the deferred path — and a caps
notification sends nothing to a session whose `waiting_200_ok` flag is
clear. (Over a whole lifetime, however, a session can receive one 200 per
request, e.g. via repeated HEAD requests — see the counterexample.) -/
theorem at_most_one_200_per_event (st st' : ServerState) (e : Ev)
    (cid element : Nat) (ctype_name : String)
    (h : stepEv st e = some st') :
    sent200_to st' cid ≤ sent200_to st cid + 1 ∧
    (e = Ev.caps element ctype_name →
      (∀ cl ∈ st.clients, cl.id = cid → cl.waiting_200_ok = false) →
      sent200_to st' cid = sent200_to st cid) := by
  cases e with
  | connect cid' peer =>
    have hst : st' = on_new_connection st cid' peer := (Option.some.inj h).symm
    subst hst
    refine ⟨?_, fun heq => Ev.noConfusion heq⟩
    simp only [sent200_to, on_new_connection]
    omega
  | req cid' data =>
    have hst : st' = handle_complete_request st cid' data :=
      (Option.some.inj h).symm
    subst hst
    refine ⟨?_, fun heq => Ev.noConfusion heq⟩
    unfold handle_complete_request
    cases hfind : st.clients.find? (fun c => c.id == cid') with
    | none =>
      dsimp only
      omega
    | some cl =>
      dsimp only
      have hle : (List.map (fun r => (cid', r))
          (client_message st.endpoints cl data).responses).countP
            (fun p => p.1 == cid && p.2.is200) ≤ 1 := by
        refine Nat.le_trans (List.countP_le_length _) ?_
        rw [List.length_map]
        exact client_message_responses_le_one _ _ _
      split
      · simp only [sent200_to, List.countP_append]
        omega
      · simp only [sent200_to, remove_client, List.countP_append]
        omega
  | caps elem ct =>
    unfold stepEv on_stream_caps_changed at h
    dsimp only at h
    cases hs : scan_waiting (set_caps st.endpoints elem ct) elem
        st.clients with
    | none =>
      rw [hs] at h
      exact absurd h (by simp)
    | some pr =>
      rcases pr with ⟨clients', msgs⟩
      rw [hs] at h
      dsimp only at h
      have hst := (Option.some.inj h).symm
      subst hst
      obtain ⟨hlen, hmem⟩ := scan_waiting_msgs (set_caps st.endpoints elem ct)
        elem st.clients clients' msgs hs
      constructor
      · simp only [sent200_to, List.countP_append]
        have := countP_le_one_of_length_le_one
          (fun p => p.1 == cid && p.2.is200) msgs hlen
        omega
      · intro _ hwait
        have hz : msgs.countP (fun p => p.1 == cid && p.2.is200) = 0 := by
          rw [List.countP_eq_zero]
          intro p hp hb
          obtain ⟨c, hcmem, hcid, hw⟩ := hmem p hp
          have h1 : p.1 = cid := by
            simp only [Bool.and_eq_true] at hb
            simpa using hb.1
          have hfalse : c.waiting_200_ok = false :=
            hwait c hcmem (hcid.trans h1)
          rw [hfalse] at hw
          exact Bool.noConfusion hw
        simp only [sent200_to, List.countP_append, hz, Nat.add_zero]

/-- Witness for `at_most_one_200_per_event`: one HEAD request on a
resolved endpoint sends exactly one additional 200. -/
theorem at_most_one_200_per_event_witness :
    sent200_to (handle_complete_request st_resolved 0
        "HEAD /cam HTTP/1.0\r\n\r\n") 0
      ≤ sent200_to st_resolved 0 + 1 ∧
    (Ev.req 0 "HEAD /cam HTTP/1.0\r\n\r\n" = Ev.caps 0 "video/x-matroska" →
      (∀ cl ∈ st_resolved.clients, cl.id = 0 → cl.waiting_200_ok = false) →
      sent200_to (handle_complete_request st_resolved 0
        "HEAD /cam HTTP/1.0\r\n\r\n") 0 = sent200_to st_resolved 0) :=
  at_most_one_200_per_event st_resolved
    (handle_complete_request st_resolved 0 "HEAD /cam HTTP/1.0\r\n\r\n")
    (Ev.req 0 "HEAD /cam HTTP/1.0\r\n\r\n") 0 0 "video/x-matroska" rfl

end HttpLaunch
